import Mathlib

/-!
Verification of the subcodex stall-detection / auto-recovery engine
(`src/index.ts`) against its natural-language specification.

The TypeScript engine is shallowly embedded as follows:
- `ThreadItem` / `ThreadEvent` mirror the SDK event and item variants consumed
  by the engine; statuses are kept as strings, matching the JS comparisons.
- An event source (`AsyncIterable<ThreadEvent>` consumed under a
  next-event-vs-inactivity-timeout race) is modelled as a `Source`: the finite
  list of events that are delivered before the race is ever lost, followed by a
  `Terminal` describing how consumption ends — graceful end of stream
  (`done`), the inactivity timeout winning the race (`timeout`), or the
  `iterator.next()` promise rejecting (`raise msg`).
- Fallible TypeScript code (a thrown exception) is modelled with
  `Except String`: `Except.error msg` is an exception carrying message `msg`
  propagating out of the function, `Except.ok` a normal return.
- The `for (attempt = 1; attempt <= maxAttempts; ...)` recovery loop of
  `runWithStallRecovery` is modelled by the structurally recursive
  `recoveryLoop` over the number of remaining iterations, with the resume
  capability (`codex.resumeThread(threadId).runStreamed(...)`) modelled as a
  function from the attempt number to a `ResumeOutcome` (either a thrown
  error or a fresh event source).
- The MCP `run` tool handler (success path building the summary JSON, catch
  path building the error response) is modelled by `runTool`; in the source the
  handler's `getThreadId` closure reads `capturedThreadId`, which is still
  `null` for the whole duration of `runWithStallRecovery` (it is assigned only
  afterwards), so the handler is embedded with `getThreadId = none`.
-/

namespace Subcodex

/-- Token usage reported by a `turn.completed` event. -/
structure Usage where
  input_tokens : Nat
  output_tokens : Nat
deriving DecidableEq, Repr

/-- One `(kind, path)` entry of a `file_change` item's `changes` array. -/
structure FileUpdateChange where
  kind : String
  path : String
deriving DecidableEq, Repr

/-- The `ThreadItem` discriminated union of the SDK, restricted to the fields
the engine reads (`type`, `text`, `command`, `status`, `exit_code`, `changes`,
`server`, `tool`, `query`, `items`, `message`). -/
inductive ThreadItem where
  | agent_message (text : String)
  | reasoning (text : String)
  | command_execution (command : String) (status : String) (exit_code : Option Int)
  | file_change (changes : List FileUpdateChange) (status : String)
  | mcp_tool_call (server : String) (tool : String) (status : String)
  | web_search (query : String)
  | todo_list (items : List String)
  | error (message : String)
deriving DecidableEq, Repr

/-- The `ThreadEvent` discriminated union of the SDK, restricted to the fields
the engine reads. -/
inductive ThreadEvent where
  | thread_started (thread_id : String)
  | turn_started
  | item_started (item : ThreadItem)
  | item_updated (item : ThreadItem)
  | item_completed (item : ThreadItem)
  | turn_completed (input_tokens : Nat) (output_tokens : Nat)
  | turn_failed (message : String)
  | error (message : String)
deriving DecidableEq, Repr

/-- How consumption of an event source ends: graceful end of stream, the
inactivity timeout winning the `Promise.race`, or `iterator.next()` rejecting
with an error message. -/
inductive Terminal where
  | done
  | timeout
  | raise (msg : String)
deriving DecidableEq, Repr

/-- An event source as observed by `processEventsWithStallDetection`: the
events obtained before the race is decided, then the terminal outcome. -/
structure Source where
  events : List ThreadEvent
  terminal : Terminal
deriving DecidableEq, Repr

/-- The `RecoveryInfo` record of the source. -/
structure RecoveryInfo where
  attempted : Bool
  attempts : Nat
  recovered : Bool
  lastError : Option String
deriving DecidableEq, Repr

/-- The `EventProcessingResult` record of the source. -/
structure EventProcessingResult where
  items : List ThreadItem
  threadId : Option String
  finalResponse : String
  usage : Option Usage
  stalled : Bool
  error : Option String
deriving DecidableEq, Repr

/-- The four-way `ResultLevel` classification. -/
inductive ResultLevel where
  | PASS
  | FAIL
  | ERROR
  | TIMEOUT
deriving DecidableEq, Repr

/-- `charsStartWith s pat`: the char list `s` starts with `pat`. -/
def charsStartWith : List Char → List Char → Bool
  | _, [] => true
  | [], _ :: _ => false
  | a :: as, b :: bs => a == b && charsStartWith as bs

/-- `charsInclude s pat`: `pat` occurs as a contiguous run somewhere in `s`. -/
def charsInclude : List Char → List Char → Bool
  | [], pat => pat.isEmpty
  | a :: rest, pat => charsStartWith (a :: rest) pat || charsInclude rest pat

/-- JavaScript `s.includes(pat)` (substring containment). -/
def strIncludes (s pat : String) : Bool :=
  charsInclude s.data pat.data

/-- `i.type === "agent_message"`. -/
def isAgentMessage : ThreadItem → Bool
  | .agent_message _ => true
  | _ => false

/-- `i.type === "error"`. -/
def isErrorItem : ThreadItem → Bool
  | .error _ => true
  | _ => false

/-- `i.type === "file_change" && i.status === "failed"`. -/
def isFailedFileChange : ThreadItem → Bool
  | .file_change _ status => status == "failed"
  | _ => false

/-- `i.type === "command_execution"`. -/
def isCommandExecution : ThreadItem → Bool
  | .command_execution _ _ _ => true
  | _ => false

/-- `i.type === "file_change"`. -/
def isFileChange : ThreadItem → Bool
  | .file_change _ _ => true
  | _ => false

/-- `i.type === "mcp_tool_call"`. -/
def isMcpToolCall : ThreadItem → Bool
  | .mcp_tool_call _ _ _ => true
  | _ => false

/-- `determineResultLevel` from the source: error classification first (with
the `"timeout"` / `"aborted"` substring test on the optional message), then
presence of an `agent_message`, then error items / failed file changes, else
PASS. -/
def determineResultLevel (items : List ThreadItem) (hasError : Bool)
    (errorMessage : Option String) : ResultLevel :=
  if hasError then
    if (match errorMessage with
        | some m => strIncludes m "timeout" || strIncludes m "aborted"
        | none => false) then
      ResultLevel.TIMEOUT
    else
      ResultLevel.ERROR
  else if items.any isAgentMessage then
    ResultLevel.PASS
  else if (items.filter isErrorItem).length > 0
      || (items.filter isFailedFileChange).length > 0 then
    ResultLevel.FAIL
  else
    ResultLevel.PASS

/-- The `${text.substring(0, 100)}${text.length > 100 ? "..." : ""}` template
used by `formatItem`. -/
def truncateText (text : String) : String :=
  text.take 100 ++ (if text.length > 100 then "..." else "")

/-- `formatItem` from the source (one human-readable line per item). -/
def formatItem : ThreadItem → String
  | .agent_message text => "[Message] " ++ truncateText text
  | .reasoning text => "[Reasoning] " ++ truncateText text
  | .command_execution command status exit_code =>
      "[Command] " ++ command ++ " (status: " ++ status ++ ", exit: "
        ++ (match exit_code with
            | some c => toString c
            | none => "running") ++ ")"
  | .file_change changes status =>
      "[FileChange] "
        ++ String.intercalate ", " (changes.map (fun c => c.kind ++ ": " ++ c.path))
        ++ " (" ++ status ++ ")"
  | .mcp_tool_call server tool status =>
      "[MCP] " ++ server ++ "/" ++ tool ++ " (" ++ status ++ ")"
  | .web_search query => "[WebSearch] " ++ query
  | .todo_list items => "[TodoList] " ++ toString items.length ++ " items"
  | .error message => "[Error] " ++ message

/-- The `writeProgress` line emitted for one processed event inside
`processEventsWithStallDetection` (timestamps elided). -/
def eventLogLine : ThreadEvent → String
  | .thread_started thread_id => "Thread started: " ++ thread_id
  | .turn_started => "Turn started"
  | .item_started item => "Started: " ++ formatItem item
  | .item_updated item => "Updated: " ++ formatItem item
  | .item_completed item => "Completed: " ++ formatItem item
  | .turn_completed input_tokens output_tokens =>
      "Turn completed. Tokens: " ++ toString input_tokens ++ " in / "
        ++ toString output_tokens ++ " out"
  | .turn_failed message => "Turn failed: " ++ message
  | .error message => "Error: " ++ message

/-- The sequence of `writeProgress` lines emitted by
`processEventsWithStallDetection` (one per processed event, plus the stall
notice when the timeout wins; a rejecting `next()` adds nothing here — the
throw escapes before any further logging). -/
def processLog (src : Source) (stallTimeoutMs : Nat) : List String :=
  src.events.map eventLogLine ++
    (match src.terminal with
     | Terminal.timeout =>
         ["STALL DETECTED: No activity for "
           ++ toString (stallTimeoutMs / 1000 / 60) ++ " minutes"]
     | _ => [])

/-- The local accumulator state of `processEventsWithStallDetection` at entry:
`items = []`, `threadId = null`, `finalResponse = ""`, `usage = null`,
`stalled = false`, and no `error` field. -/
def initResult : EventProcessingResult :=
  { items := [], threadId := none, finalResponse := "", usage := none,
    stalled := false, error := none }

/-- The `switch (event.type)` body of `processEventsWithStallDetection`:
how one successfully obtained event updates the accumulator. -/
def stepEvent (st : EventProcessingResult) (e : ThreadEvent) : EventProcessingResult :=
  match e with
  | .thread_started tid => { st with threadId := some tid }
  | .turn_started => st
  | .item_started _ => st
  | .item_updated _ => st
  | .item_completed item =>
      match item with
      | .agent_message text =>
          { st with items := st.items ++ [ThreadItem.agent_message text],
                    finalResponse := text }
      | _ => { st with items := st.items ++ [item] }
  | .turn_completed input_tokens output_tokens =>
      { st with usage := some { input_tokens := input_tokens, output_tokens := output_tokens } }
  | .turn_failed _ => st
  | .error _ => st

/-- `processEventsWithStallDetection` from the source. Every event delivered
before the terminal outcome is folded through `stepEvent`; then the loop ends:
graceful end of stream returns the accumulator (`stalled` still `false`), a
winning timeout returns it with `stalled := true`, and a rejecting
`iterator.next()` makes the whole function throw (there is no try/catch in the
source function), modelled as `Except.error`. -/
def processEventsWithStallDetection (src : Source) : Except String EventProcessingResult :=
  match src.terminal with
  | Terminal.done => Except.ok (src.events.foldl stepEvent initResult)
  | Terminal.timeout =>
      Except.ok { src.events.foldl stepEvent initResult with stalled := true }
  | Terminal.raise msg => Except.error msg

/-- Outcome of invoking the resume capability
(`codex.resumeThread(threadId).runStreamed(prompt)`) for one recovery attempt:
either the call throws, or it yields a fresh event source. -/
inductive ResumeOutcome where
  | throws (msg : String)
  | stream (src : Source)
deriving DecidableEq, Repr

/-- `attemptRecovery` from the source: resume the thread and run the new
source through `processEventsWithStallDetection`. Its try/catch absorbs both a
throwing resume capability and a rejecting recovery source into a synthetic
stalled result carrying the message as `error`; a sub-run that completes
without stalling is flagged `recoverySuccess = true` (the second component). -/
def attemptRecovery (threadId : String) (resumeOutcome : ResumeOutcome) :
    EventProcessingResult × Bool :=
  match resumeOutcome with
  | .throws msg =>
      ({ items := [], threadId := some threadId, finalResponse := "", usage := none,
         stalled := true, error := some msg }, false)
  | .stream src =>
      match processEventsWithStallDetection src with
      | .error msg =>
          ({ items := [], threadId := some threadId, finalResponse := "", usage := none,
             stalled := true, error := some msg }, false)
      | .ok result =>
          if result.stalled then (result, false) else (result, true)

/-- JavaScript `a || b` for `a : string | undefined` and a string default
(`""` is falsy). -/
def jsOrDefault (a : Option String) (b : String) : String :=
  match a with
  | some s => if s.isEmpty then b else s
  | none => b

/-- JavaScript `a || b` for nullable strings (`""` is falsy). -/
def jsOrElse (a b : Option String) : Option String :=
  match a with
  | some s => if s.isEmpty then b else some s
  | none => b

/-- The string `"Still stalled after recovery attempt"` used as the fallback
`lastError` of a failed attempt. -/
def stillStalledMsg : String := "Still stalled after recovery attempt"

/-- The `for (attempt = 1; attempt <= maxAttempts; attempt++)` loop of
`runWithStallRecovery`, recursing on the number of remaining iterations.
Each iteration sets `recovery.attempts := attempt`, runs `attemptRecovery`,
and on success merges the recovery items after the original ones, adopts the
recovery pass's other fields, pins `threadId`, and stops; on failure it
records `lastError` and moves to the next attempt. -/
def recoveryLoop (tid : String) (resume : Nat → ResumeOutcome)
    (result : EventProcessingResult) (rec : RecoveryInfo)
    (attempt remaining : Nat) : EventProcessingResult × RecoveryInfo :=
  match remaining with
  | 0 => (result, rec)
  | Nat.succ r =>
      if (attemptRecovery tid (resume attempt)).2 then
        ({ (attemptRecovery tid (resume attempt)).1 with
             items := result.items ++ (attemptRecovery tid (resume attempt)).1.items,
             threadId := some tid },
         { rec with attempts := attempt, recovered := true })
      else
        recoveryLoop tid resume result
          { rec with
              attempts := attempt
              lastError := some (jsOrDefault (attemptRecovery tid (resume attempt)).1.error
                stillStalledMsg) }
          (attempt + 1) r

/-- The successive `RecoveryInfo` states observable at the end of each
executed iteration of the recovery loop (used to state monotonicity of the
mutated record; mirrors `recoveryLoop` iteration for iteration). -/
def recoveryTrace (tid : String) (resume : Nat → ResumeOutcome)
    (rec : RecoveryInfo) (attempt remaining : Nat) : List RecoveryInfo :=
  match remaining with
  | 0 => []
  | Nat.succ r =>
      if (attemptRecovery tid (resume attempt)).2 then
        [{ rec with attempts := attempt, recovered := true }]
      else
        { rec with
            attempts := attempt
            lastError := some (jsOrDefault (attemptRecovery tid (resume attempt)).1.error
              stillStalledMsg) } ::
          recoveryTrace tid resume
            { rec with
                attempts := attempt
                lastError := some (jsOrDefault (attemptRecovery tid (resume attempt)).1.error
                  stillStalledMsg) }
            (attempt + 1) r

/-- Last element of a list of recovery states, with a default. -/
def lastD (l : List RecoveryInfo) (d : RecoveryInfo) : RecoveryInfo :=
  match l with
  | [] => d
  | x :: xs => lastD xs x

/-- The `{ result, recovery }` pair returned by `runWithStallRecovery`. -/
structure RunRecoveryOutput where
  result : EventProcessingResult
  recovery : RecoveryInfo
deriving DecidableEq, Repr

/-- `runWithStallRecovery` from the source: one pass through
`processEventsWithStallDetection` (whose exception, if any, propagates — there
is no try/catch here), then, only when that pass stalled and
`result.threadId || getThreadId()` is a truthy string, the recovery loop with
`attempted := true`. -/
def runWithStallRecovery (src : Source) (getThreadId : Option String)
    (resume : Nat → ResumeOutcome) (maxRecoveryAttempts : Nat) :
    Except String RunRecoveryOutput :=
  match processEventsWithStallDetection src with
  | .error msg => .error msg
  | .ok result =>
      match jsOrElse result.threadId getThreadId with
      | some tid =>
          if result.stalled && !tid.isEmpty then
            let looped := recoveryLoop tid resume result
              { attempted := true, attempts := 0, recovered := false, lastError := none }
              1 maxRecoveryAttempts
            .ok { result := looped.1, recovery := looped.2 }
          else
            .ok { result := result,
                  recovery := { attempted := false, attempts := 0, recovered := false,
                                lastError := none } }
      | none =>
          .ok { result := result,
                recovery := { attempted := false, attempts := 0, recovered := false,
                              lastError := none } }

/-- Outcome of starting the session
(`codex.startThread(...).runStreamed(prompt)`): a throw, or an event source. -/
inductive StartOutcome where
  | throws (msg : String)
  | stream (src : Source)
deriving DecidableEq, Repr

/-- `changes.map(c => kind + ": " + path)` for a `file_change` item, `[]`
otherwise (the inner type test of the `filesModified` flatMap). -/
def fileChangeDescriptors : ThreadItem → List String
  | .file_change changes _ => changes.map (fun c => c.kind ++ ": " ++ c.path)
  | _ => []

/-- The summary record serialized by the `run` tool handler (fields that are
pure functions of the engine's outputs; log-file paths elided). -/
structure RunSummary where
  threadId : Option String
  content : String
  totalItems : Nat
  commands : Nat
  fileChanges : Nat
  mcpCalls : Nat
  usage : Option Usage
  filesModified : List String
  recovery : Option RecoveryInfo
  needsUserInput : Bool
deriving DecidableEq, Repr

/-- The `run` tool handler's response: the summary JSON (success path,
labelled with the computed result level used to rename the log), or the
catch-path error response. -/
inductive ToolResponse where
  | success (resultLevel : ResultLevel) (summary : RunSummary)
  | failure (resultLevel : ResultLevel) (errorMessage : String)
deriving DecidableEq, Repr

/-- The result level carried by a tool response. -/
def ToolResponse.level : ToolResponse → ResultLevel
  | .success lvl _ => lvl
  | .failure lvl _ => lvl

/-- The `recovery` field of the serialized summary (`undefined` on the catch
path). -/
def ToolResponse.recoveryField : ToolResponse → Option RecoveryInfo
  | .success _ s => s.recovery
  | .failure _ _ => none

/-- The `needsUserInput` field of the serialized summary (`false` is never
emitted on the catch path; modelled as `false` there). -/
def ToolResponse.needsUserInputField : ToolResponse → Bool
  | .success _ s => s.needsUserInput
  | .failure _ _ => false

/-- The `run` tool handler from the source. A throw from starting the session
or escaping `runWithStallRecovery` lands in the catch branch, which classifies
via `determineResultLevel([], true, msg)`; the success path computes
`hasUnrecoveredStall = stalled && !recovery.recovered`, overrides the level to
TIMEOUT on an unrecovered stall, and builds the summary (the `recovery` field
is present only when `recovery.attempted`). The handler's `getThreadId`
closure still reads `null` during the run, hence `none` below. -/
def runTool (start : StartOutcome) (resume : Nat → ResumeOutcome)
    (maxAttempts : Nat) : ToolResponse :=
  match start with
  | .throws msg => .failure (determineResultLevel [] true (some msg)) msg
  | .stream src =>
      match runWithStallRecovery src none resume maxAttempts with
      | .error msg => .failure (determineResultLevel [] true (some msg)) msg
      | .ok out =>
          .success
            (if out.result.stalled && !out.recovery.recovered then ResultLevel.TIMEOUT
             else determineResultLevel out.result.items false none)
            { threadId := out.result.threadId
              content := out.result.finalResponse
              totalItems := out.result.items.length
              commands := (out.result.items.filter isCommandExecution).length
              fileChanges := (out.result.items.filter isFileChange).length
              mcpCalls := (out.result.items.filter isMcpToolCall).length
              usage := out.result.usage
              filesModified :=
                ((out.result.items.filter isFileChange).map fileChangeDescriptors).flatten
              recovery := if out.recovery.attempted then some out.recovery else none
              needsUserInput := out.result.stalled && !out.recovery.recovered }

/-- The item appended to `items` by one event: `[item]` for `item.completed`,
nothing otherwise. -/
def eventCompletedItem : ThreadEvent → List ThreadItem
  | .item_completed item => [item]
  | _ => []

/-- All items appended while processing a list of events, in arrival order. -/
def completedItems : List ThreadEvent → List ThreadItem
  | [] => []
  | e :: es => eventCompletedItem e ++ completedItems es

/-- How one event updates the captured session identifier: a
`thread.started` event overwrites it, every other event leaves it alone. -/
def observeThreadId (acc : Option String) (e : ThreadEvent) : Option String :=
  match e with
  | .thread_started tid => some tid
  | _ => acc

/-- The session identifier recorded after a list of events: the `thread_id`
of the last `thread.started` event, or `none` if there is none. -/
def lastThreadId (events : List ThreadEvent) : Option String :=
  events.foldl observeThreadId none

/-- `e.type === "thread.started"`. -/
def isThreadStartedEvent : ThreadEvent → Bool
  | .thread_started _ => true
  | _ => false

/-- `e.type === "turn.failed" || e.type === "error"`. -/
def isTurnFailedOrErrorEvent : ThreadEvent → Bool
  | .turn_failed _ => true
  | .error _ => true
  | _ => false

/-- Monotone evolution of the mutable `RecoveryInfo` record: `attempts` never
decreases, and the booleans `attempted` and `recovered`, once `true`, stay
`true`. -/
def recMono (s t : RecoveryInfo) : Prop :=
  s.attempts ≤ t.attempts ∧ (s.attempted = true → t.attempted = true)
    ∧ (s.recovered = true → t.recovered = true)

/-- The `RecoveryInfo` state right before the first loop iteration of
`runWithStallRecovery` once a stall with a usable session id was detected. -/
def recoveryStart : RecoveryInfo :=
  { attempted := true, attempts := 0, recovered := false, lastError := none }

/-- The summary serialized for a run that produced no items, no session id,
no usage, and did not stall. -/
def emptySummary : RunSummary :=
  { threadId := none, content := "", totalItems := 0, commands := 0, fileChanges := 0,
    mcpCalls := 0, usage := none, filesModified := [], recovery := none,
    needsUserInput := false }

/-- Concrete pre-stall item A of the merge-order scenario. -/
def itemA : ThreadItem := .reasoning "A"

/-- Concrete pre-stall item B of the merge-order scenario. -/
def itemB : ThreadItem := .reasoning "B"

/-- Concrete successful-recovery item C of the merge-order scenario. -/
def itemC : ThreadItem := .agent_message "C"

/-- Concrete item produced (and then dropped) by a failed recovery attempt. -/
def itemD : ThreadItem := .reasoning "D"

/-- Original pass of the merge-order scenario: session id `"T"` observed,
items A and B completed, then a stall. -/
def cexSource : Source :=
  { events := [.thread_started "T", .item_completed itemA, .item_completed itemB],
    terminal := .timeout }

/-- Resume capability of the merge-order scenario: recovery attempt 1 yields
item D and stalls again; attempt 2 yields item C and ends gracefully. -/
def cexResume : Nat → ResumeOutcome := fun n =>
  if n == 1 then .stream { events := [.item_completed itemD], terminal := .timeout }
  else .stream { events := [.item_completed itemC], terminal := .done }

/-- Processing one event never touches the `stalled` flag. -/
theorem stepEvent_stalled (st : EventProcessingResult) (e : ThreadEvent) :
    (stepEvent st e).stalled = st.stalled := by
  cases e <;> first
    | rfl
    | (rename_i item; cases item <;> rfl)

/-- Processing one event never touches the `error` field. -/
theorem stepEvent_error (st : EventProcessingResult) (e : ThreadEvent) :
    (stepEvent st e).error = st.error := by
  cases e <;> first
    | rfl
    | (rename_i item; cases item <;> rfl)

/-- The session identifier after one event is `observeThreadId` of the one
before. -/
theorem stepEvent_threadId (st : EventProcessingResult) (e : ThreadEvent) :
    (stepEvent st e).threadId = observeThreadId st.threadId e := by
  cases e <;> first
    | rfl
    | (rename_i item; cases item <;> rfl)

/-- One event appends exactly its completed item (if any) to `items`. -/
theorem stepEvent_items (st : EventProcessingResult) (e : ThreadEvent) :
    (stepEvent st e).items = st.items ++ eventCompletedItem e := by
  cases e <;> first
    | (rename_i item; cases item <;> simp [stepEvent, eventCompletedItem])
    | (simp [stepEvent, eventCompletedItem])

/-- The event fold never touches the `stalled` flag. -/
theorem foldl_stepEvent_stalled (events : List ThreadEvent) :
    ∀ st : EventProcessingResult, (events.foldl stepEvent st).stalled = st.stalled := by
  induction events with
  | nil => intro st; rfl
  | cons e es ih => intro st; rw [List.foldl_cons, ih, stepEvent_stalled]

/-- The event fold never touches the `error` field. -/
theorem foldl_stepEvent_error (events : List ThreadEvent) :
    ∀ st : EventProcessingResult, (events.foldl stepEvent st).error = st.error := by
  induction events with
  | nil => intro st; rfl
  | cons e es ih => intro st; rw [List.foldl_cons, ih, stepEvent_error]

/-- The session identifier after the event fold is the fold of
`observeThreadId`. -/
theorem foldl_stepEvent_threadId (events : List ThreadEvent) :
    ∀ st : EventProcessingResult,
      (events.foldl stepEvent st).threadId = events.foldl observeThreadId st.threadId := by
  induction events with
  | nil => intro st; rfl
  | cons e es ih =>
      intro st
      rw [List.foldl_cons, List.foldl_cons, ih, stepEvent_threadId]

/-- The event fold appends exactly the completed items, in arrival order. -/
theorem foldl_stepEvent_items (events : List ThreadEvent) :
    ∀ st : EventProcessingResult,
      (events.foldl stepEvent st).items = st.items ++ completedItems events := by
  induction events with
  | nil => intro st; simp [completedItems]
  | cons e es ih =>
      intro st
      rw [List.foldl_cons, ih, stepEvent_items]
      simp [completedItems]

/-- A `turn.failed` or `error` event leaves the accumulator unchanged
(it is only logged). -/
theorem stepEvent_inert (st : EventProcessingResult) (e : ThreadEvent)
    (h : isTurnFailedOrErrorEvent e = true) : stepEvent st e = st := by
  cases e <;> first
    | rfl
    | simp [isTurnFailedOrErrorEvent] at h

/-- A list of `turn.failed` / `error` events leaves the accumulator
unchanged. -/
theorem foldl_stepEvent_inert (events : List ThreadEvent)
    (h : ∀ e ∈ events, isTurnFailedOrErrorEvent e = true) :
    ∀ st : EventProcessingResult, events.foldl stepEvent st = st := by
  induction events with
  | nil => intro st; rfl
  | cons e es ih =>
      intro st
      rw [List.foldl_cons, stepEvent_inert st e (h e (List.mem_cons_self e es))]
      exact ih (fun x hx => h x (List.mem_cons_of_mem e hx)) st

/-- Without any `thread.started` event the observed session identifier never
changes. -/
theorem observe_no_thread_started (events : List ThreadEvent)
    (h : ∀ e ∈ events, isThreadStartedEvent e = false) :
    ∀ acc : Option String, events.foldl observeThreadId acc = acc := by
  induction events with
  | nil => intro acc; rfl
  | cons e es ih =>
      intro acc
      have he := h e (List.mem_cons_self e es)
      have hstep : observeThreadId acc e = acc := by
        cases e <;> first
          | rfl
          | simp [isThreadStartedEvent] at he
      rw [List.foldl_cons, hstep]
      exact ih (fun x hx => h x (List.mem_cons_of_mem e hx)) acc

/-- Unfolding `processEventsWithStallDetection` on a gracefully ending
source. -/
theorem processEvents_done (events : List ThreadEvent) :
    processEventsWithStallDetection { events := events, terminal := Terminal.done }
      = Except.ok (events.foldl stepEvent initResult) := rfl

/-- Unfolding `processEventsWithStallDetection` on a timing-out source. -/
theorem processEvents_timeout (events : List ThreadEvent) :
    processEventsWithStallDetection { events := events, terminal := Terminal.timeout }
      = Except.ok { events.foldl stepEvent initResult with stalled := true } := rfl

/-- Unfolding `processEventsWithStallDetection` on a source whose `next()`
rejects: the exception escapes. -/
theorem processEvents_raise (events : List ThreadEvent) (msg : String) :
    processEventsWithStallDetection { events := events, terminal := Terminal.raise msg }
      = Except.error msg := rfl

/-- The last recovery state with default is either the default (empty trace)
or a member of the trace. -/
theorem lastD_mem : ∀ (l : List RecoveryInfo) (d : RecoveryInfo),
    lastD l d = d ∨ lastD l d ∈ l
  | [], _ => Or.inl rfl
  | x :: xs, d => by
      rcases lastD_mem xs x with h | h
      · right; rw [lastD, h]; exact List.mem_cons_self x xs
      · right; rw [lastD]; exact List.mem_cons_of_mem x h

/-- When the current recovery attempt succeeds, the loop stops and merges:
the recovery pass's fields are adopted, `items` becomes the original items
followed by the recovery items, `threadId` is pinned, `recovered` is set. -/
theorem recoveryLoop_first_success (tid : String) (resume : Nat → ResumeOutcome)
    (result : EventProcessingResult) (rec : RecoveryInfo) (a r : Nat)
    (hsucc : (attemptRecovery tid (resume a)).2 = true) :
    recoveryLoop tid resume result rec a (r + 1)
      = ({ (attemptRecovery tid (resume a)).1 with
             items := result.items ++ (attemptRecovery tid (resume a)).1.items
             threadId := some tid },
         { rec with
             attempts := a
             recovered := true }) := by
  simp [recoveryLoop, hsucc]

/-- When the current recovery attempt fails, the loop records `lastError` and
moves on; the failed attempt's result (items included) is discarded. -/
theorem recoveryLoop_failed_step (tid : String) (resume : Nat → ResumeOutcome)
    (result : EventProcessingResult) (rec : RecoveryInfo) (a r : Nat)
    (hfail : (attemptRecovery tid (resume a)).2 = false) :
    recoveryLoop tid resume result rec a (r + 1)
      = recoveryLoop tid resume result
          { rec with
              attempts := a
              lastError := some (jsOrDefault (attemptRecovery tid (resume a)).1.error
                stillStalledMsg) }
          (a + 1) r := by
  simp [recoveryLoop, hfail]

/-- `runWithStallRecovery` on a stalled pass with a usable (nonempty) session
identifier enters the recovery loop with `attempted := true`. -/
theorem runWithStallRecovery_stalled_tid (src : Source) (getThreadId : Option String)
    (resume : Nat → ResumeOutcome) (maxAttempts : Nat)
    (st : EventProcessingResult) (tid : String)
    (hok : processEventsWithStallDetection src = Except.ok st)
    (hstall : st.stalled = true) (htid : st.threadId = some tid)
    (hne : tid.isEmpty = false) :
    runWithStallRecovery src getThreadId resume maxAttempts
      = Except.ok { result := (recoveryLoop tid resume st recoveryStart 1 maxAttempts).1,
                    recovery := (recoveryLoop tid resume st recoveryStart 1 maxAttempts).2 } := by
  unfold runWithStallRecovery
  rw [hok]
  simp [jsOrElse, htid, hne, hstall, recoveryStart]

/-- `runWithStallRecovery` on a pass without any usable session identifier
(no identifier surfaced, none supplied) never attempts recovery. -/
theorem runWithStallRecovery_no_tid (src : Source)
    (resume : Nat → ResumeOutcome) (maxAttempts : Nat)
    (st : EventProcessingResult)
    (hok : processEventsWithStallDetection src = Except.ok st)
    (htid : st.threadId = none) :
    runWithStallRecovery src none resume maxAttempts
      = Except.ok { result := st,
                    recovery := { attempted := false, attempts := 0, recovered := false,
                                  lastError := none } } := by
  unfold runWithStallRecovery
  rw [hok]
  simp [jsOrElse, htid]

/-- `runWithStallRecovery` on a pass that did not stall never attempts
recovery. -/
theorem runWithStallRecovery_not_stalled (src : Source) (getThreadId : Option String)
    (resume : Nat → ResumeOutcome) (maxAttempts : Nat)
    (st : EventProcessingResult)
    (hok : processEventsWithStallDetection src = Except.ok st)
    (hstall : st.stalled = false) :
    runWithStallRecovery src getThreadId resume maxAttempts
      = Except.ok { result := st,
                    recovery := { attempted := false, attempts := 0, recovered := false,
                                  lastError := none } } := by
  unfold runWithStallRecovery
  rw [hok]
  cases hjs : jsOrElse st.threadId getThreadId with
  | none => simp [hjs]
  | some tid => simp [hjs, hstall]

/-- The last state of the recovery trace is the recovery record returned by
the recovery loop. -/
theorem recoveryTrace_lastD (tid : String) (resume : Nat → ResumeOutcome)
    (result : EventProcessingResult) :
    ∀ (r a : Nat) (rec : RecoveryInfo),
      lastD (recoveryTrace tid resume rec a r) rec
        = (recoveryLoop tid resume result rec a r).2 := by
  intro r
  induction r with
  | zero => intro a rec; rfl
  | succ r ih =>
      intro a rec
      cases hs : (attemptRecovery tid (resume a)).2 with
      | true => simp [recoveryTrace, recoveryLoop, hs, lastD]
      | false =>
          simp only [recoveryTrace, recoveryLoop, hs, Bool.false_eq_true, if_false, lastD]
          exact ih (a + 1) _

/-- Invariants of the recovery trace: within one activation of the loop the
`attempted` flag is constant, `attempts` stays between the first attempt
number and the last allowed one, once-`recovered` stays recovered, the states
evolve monotonically, and (starting un-recovered) a `recovered` state can
only be the final state of the trace — the loop stops there. -/
theorem recoveryTrace_props (tid : String) (resume : Nat → ResumeOutcome) :
    ∀ (r a : Nat) (rec : RecoveryInfo),
      (∀ s ∈ recoveryTrace tid resume rec a r,
          s.attempted = rec.attempted ∧ a ≤ s.attempts ∧ s.attempts + 1 ≤ a + r
            ∧ (rec.recovered = true → s.recovered = true))
      ∧ List.Chain' recMono (recoveryTrace tid resume rec a r)
      ∧ (rec.recovered = false →
          ∀ (l1 : List RecoveryInfo) (s : RecoveryInfo) (l2 : List RecoveryInfo),
            recoveryTrace tid resume rec a r = l1 ++ s :: l2 →
              s.recovered = true → l2 = []) := by
  intro r
  induction r with
  | zero =>
      intro a rec
      refine ⟨?_, ?_, ?_⟩
      · intro s hmem
        exact absurd hmem (List.not_mem_nil s)
      · exact List.chain'_nil
      · intro _ l1 s l2 hdec _
        have h0 : l1 ++ s :: l2 = ([] : List RecoveryInfo) := hdec.symm
        exact ((List.cons_ne_nil s l2) (List.append_eq_nil.mp h0).2).elim
  | succ r ih =>
      intro a rec
      cases hs : (attemptRecovery tid (resume a)).2 with
      | true =>
          have htr1 : recoveryTrace tid resume rec a (r + 1)
              = [{ rec with attempts := a, recovered := true }] := by
            simp [recoveryTrace, hs]
          refine ⟨?_, ?_, ?_⟩
          · intro s hmem
            rw [htr1] at hmem
            rcases List.mem_singleton.mp hmem with rfl
            refine ⟨rfl, le_refl a, ?_, fun _ => rfl⟩
            show a + 1 ≤ a + (r + 1)
            omega
          · rw [htr1]
            exact List.chain'_singleton _
          · intro _ l1 s l2 hdec _
            rw [htr1] at hdec
            cases l1 with
            | nil =>
                injection hdec with h1 h2
                exact h2.symm
            | cons y ys =>
                injection hdec with h1 h2
                exact ((List.cons_ne_nil s l2) (List.append_eq_nil.mp h2.symm).2).elim
      | false =>
          have htr2 : recoveryTrace tid resume rec a (r + 1)
              = { rec with
                    attempts := a
                    lastError := some (jsOrDefault (attemptRecovery tid (resume a)).1.error
                      stillStalledMsg) }
                :: recoveryTrace tid resume
                    { rec with
                        attempts := a
                        lastError := some (jsOrDefault (attemptRecovery tid (resume a)).1.error
                          stillStalledMsg) } (a + 1) r := by
            simp [recoveryTrace, hs]
          obtain ⟨ihmem, ihchain, ihpos⟩ := ih (a + 1)
            { rec with
                attempts := a
                lastError := some (jsOrDefault (attemptRecovery tid (resume a)).1.error
                  stillStalledMsg) }
          refine ⟨?_, ?_, ?_⟩
          · intro s hmem
            rw [htr2] at hmem
            rcases List.mem_cons.mp hmem with rfl | hmem2
            · refine ⟨rfl, le_refl a, ?_, fun h => h⟩
              show a + 1 ≤ a + (r + 1)
              omega
            · obtain ⟨h1, h2, h3, h4⟩ := ihmem s hmem2
              refine ⟨h1, ?_, ?_, fun h => h4 h⟩
              · omega
              · omega
          · rw [htr2, List.chain'_cons']
            constructor
            · intro b hb
              obtain ⟨h1, h2, h3, h4⟩ := ihmem b (List.mem_of_mem_head? hb)
              refine ⟨?_, ?_, ?_⟩
              · show a ≤ b.attempts
                omega
              · intro h
                rw [h1]
                exact h
              · intro h
                exact h4 h
            · exact ihchain
          · intro hrecov l1 s l2 hdec hrecov2
            rw [htr2] at hdec
            cases l1 with
            | nil =>
                injection hdec with h1 h2
                exfalso
                rw [← h1] at hrecov2
                have hx : rec.recovered = true := hrecov2
                rw [hrecov] at hx
                exact Bool.noConfusion hx
            | cons y ys =>
                injection hdec with h1 h2
                exact ihpos hrecov ys s l2 h2 hrecov2

/-- Full case analysis of `runWithStallRecovery` after a successful original
pass: either a truthy session identifier was available and the pass stalled —
then the recovery loop ran from `recoveryStart` — or no recovery happened and
the untouched record is returned. -/
theorem runWithStallRecovery_out (src : Source) (g : Option String)
    (resume : Nat → ResumeOutcome) (maxAttempts : Nat) (st : EventProcessingResult)
    (hok : processEventsWithStallDetection src = Except.ok st) :
    (∃ tid, jsOrElse st.threadId g = some tid ∧ (st.stalled && !tid.isEmpty) = true ∧
        runWithStallRecovery src g resume maxAttempts
          = Except.ok { result := (recoveryLoop tid resume st recoveryStart 1 maxAttempts).1,
                        recovery := (recoveryLoop tid resume st recoveryStart 1 maxAttempts).2 })
    ∨ runWithStallRecovery src g resume maxAttempts
        = Except.ok { result := st,
                      recovery := { attempted := false, attempts := 0, recovered := false,
                                    lastError := none } } := by
  unfold runWithStallRecovery
  rw [hok]
  cases hjs : jsOrElse st.threadId g with
  | none =>
      right
      simp [hjs]
  | some tid =>
      by_cases hcond : (st.stalled && !tid.isEmpty) = true
      · left
        refine ⟨tid, rfl, hcond, ?_⟩
        simp [hjs, hcond, recoveryStart]
      · right
        simp [hjs, hcond]

/-- The recovery loop, started as the orchestrator starts it, never reports
more than `maxAttempts` attempts. -/
theorem recoveryLoop_attempts_le_start (tid : String) (resume : Nat → ResumeOutcome)
    (result : EventProcessingResult) (maxAttempts : Nat) :
    (recoveryLoop tid resume result recoveryStart 1 maxAttempts).2.attempts ≤ maxAttempts := by
  rw [← recoveryTrace_lastD tid resume result maxAttempts 1 recoveryStart]
  rcases lastD_mem (recoveryTrace tid resume recoveryStart 1 maxAttempts) recoveryStart with h | h
  · rw [h]
    exact Nat.zero_le _
  · have h3 := ((recoveryTrace_props tid resume maxAttempts 1 recoveryStart).1 _ h).2.2.1
    omega

/-- Whatever `runWithStallRecovery` returns normally reports at most
`maxAttempts` recovery attempts. -/
theorem runWithStallRecovery_attempts_le (src : Source) (g : Option String)
    (resume : Nat → ResumeOutcome) (maxAttempts : Nat) (out : RunRecoveryOutput)
    (hout : runWithStallRecovery src g resume maxAttempts = Except.ok out) :
    out.recovery.attempts ≤ maxAttempts := by
  cases hpe : processEventsWithStallDetection src with
  | error m =>
      unfold runWithStallRecovery at hout
      rw [hpe] at hout
      exact Except.noConfusion hout
  | ok st =>
      rcases runWithStallRecovery_out src g resume maxAttempts st hpe with
        ⟨tid, -, -, hrw⟩ | hrw
      · rw [hrw] at hout
        injection hout with h
        rw [← h]
        exact recoveryLoop_attempts_le_start tid resume st maxAttempts
      · rw [hrw] at hout
        injection hout with h
        rw [← h]
        exact Nat.zero_le _

/-- Claim C1, counterexample: on a source whose next-event operation rejects
(here with message `"boom"`), `processEventsWithStallDetection` does NOT
return normally with the error captured in the result record — it propagates
the exception (`Except.error`), so there is no returned Run Result at all
(`toOption = none`), contradicting the claimed capture into `error` with
`stalled = false`. -/
theorem source_error_not_captured_cex :
    processEventsWithStallDetection { events := [], terminal := Terminal.raise "boom" }
        = Except.error "boom"
    ∧ (processEventsWithStallDetection
        { events := [], terminal := Terminal.raise "boom" }).toOption = none :=
  ⟨rfl, rfl⟩

/-- Claim C1, amended: if obtaining the next event raises, the function has no
try/catch — the exception propagates out of `processEventsWithStallDetection`
(and out of `runWithStallRecovery`); it is captured further out: the tool
handler's catch classifies it via the Outcome Evaluator with `hadError = true`,
and `attemptRecovery`'s catch (during recovery) absorbs it into a synthetic
stalled result with `error` set to the message. -/
theorem source_error_propagates (events : List ThreadEvent) (msg : String)
    (resume : Nat → ResumeOutcome) (maxAttempts : Nat) (tid : String) :
    processEventsWithStallDetection { events := events, terminal := Terminal.raise msg }
        = Except.error msg
    ∧ runWithStallRecovery { events := events, terminal := Terminal.raise msg }
        none resume maxAttempts = Except.error msg
    ∧ runTool (StartOutcome.stream { events := events, terminal := Terminal.raise msg })
        resume maxAttempts
        = ToolResponse.failure (determineResultLevel [] true (some msg)) msg
    ∧ attemptRecovery tid (ResumeOutcome.stream { events := events, terminal := Terminal.raise msg })
        = ({ items := [], threadId := some tid, finalResponse := "", usage := none,
             stalled := true, error := some msg }, false) :=
  ⟨rfl, rfl, rfl, rfl⟩

/-- Claim C2 (confirmed): with `hadError = false`, any item list containing a
completed `agent_message` item makes `determineResultLevel` return PASS,
regardless of the error items or failed file-change items it also contains. -/
theorem completed_message_forces_pass (items : List ThreadItem)
    (h : items.any isAgentMessage = true) :
    determineResultLevel items false none = ResultLevel.PASS := by
  simp [determineResultLevel, h]

/-- Witness for C2: a list with an error item, a failed file change, and a
completed message still evaluates to PASS. -/
theorem completed_message_forces_pass_witness :
    determineResultLevel
        [ThreadItem.error "sub-command failed",
         ThreadItem.file_change [{ kind := "update", path := "a.txt" }] "failed",
         ThreadItem.agent_message "done"] false none = ResultLevel.PASS :=
  completed_message_forces_pass _ (by decide)

/-- Claim C4, counterexample: the session identifier is reassigned by every
`thread.started` event. After observing `thread.started "X"` the recorded id
is `"X"`, but a later `thread.started "Y"` in the same run overwrites it to
`"Y"`, and the run's returned Run Result carries `"Y"`, not the first
observation `"X"`. -/
theorem thread_id_reassigned_cex :
    (stepEvent initResult (ThreadEvent.thread_started "X")).threadId = some "X"
    ∧ (stepEvent (stepEvent initResult (ThreadEvent.thread_started "X"))
        (ThreadEvent.thread_started "Y")).threadId = some "Y"
    ∧ (processEventsWithStallDetection
        { events := [ThreadEvent.thread_started "X", ThreadEvent.thread_started "Y"],
          terminal := Terminal.done }).toOption.map (fun st => st.threadId)
        = some (some "Y")
    ∧ (some "Y" : Option String) ≠ some "X" :=
  ⟨rfl, rfl, rfl, by decide⟩

/-- Claim C4, amended: the captured session identifier is overwritten by each
`thread.started` event — the Run Result carries the `thread_id` of the LAST
`thread.started` event of the run (so it is assigned once only for runs
containing at most one such event; it is never modified by any other event
kind). -/
theorem thread_id_last_observation (events : List ThreadEvent) (term : Terminal)
    (st : EventProcessingResult)
    (h : processEventsWithStallDetection { events := events, terminal := term }
      = Except.ok st) :
    st.threadId = lastThreadId events := by
  cases term with
  | done =>
      rw [processEvents_done] at h
      injection h with h1
      rw [← h1, foldl_stepEvent_threadId]
      rfl
  | timeout =>
      rw [processEvents_timeout] at h
      injection h with h1
      rw [← h1]
      show (events.foldl stepEvent initResult).threadId = lastThreadId events
      rw [foldl_stepEvent_threadId]
      rfl
  | raise m =>
      rw [processEvents_raise] at h
      exact Except.noConfusion h

/-- Witness for the amended C4 at the two-`thread.started` stream. -/
theorem thread_id_last_observation_witness :
    ({ items := [], threadId := some "Y", finalResponse := "", usage := none,
       stalled := false, error := none } : EventProcessingResult).threadId
      = lastThreadId [ThreadEvent.thread_started "X", ThreadEvent.thread_started "Y"] :=
  thread_id_last_observation
    [ThreadEvent.thread_started "X", ThreadEvent.thread_started "Y"]
    Terminal.done
    { items := [], threadId := some "Y", finalResponse := "", usage := none,
      stalled := false, error := none }
    rfl

/-- Claim C5 (confirmed): with `hadError = true` the evaluator returns TIMEOUT
exactly when the message contains the `"timeout"` or `"aborted"` indicator
substring, and ERROR otherwise (also when no message is present); a source
error raised during the original run reaches the handler's catch, which
classifies it this way with recovery skipped entirely (the response is the
error response, independent of the resume capability). -/
theorem error_level_classification (items : List ThreadItem) (msg : String)
    (events : List ThreadEvent) (resume : Nat → ResumeOutcome) (maxAttempts : Nat) :
    (determineResultLevel items true (some msg) = ResultLevel.TIMEOUT
      ↔ (strIncludes msg "timeout" || strIncludes msg "aborted") = true)
    ∧ (determineResultLevel items true (some msg) = ResultLevel.ERROR
      ↔ (strIncludes msg "timeout" || strIncludes msg "aborted") = false)
    ∧ determineResultLevel items true none = ResultLevel.ERROR
    ∧ runTool (StartOutcome.stream { events := events, terminal := Terminal.raise msg })
        resume maxAttempts
      = ToolResponse.failure (determineResultLevel [] true (some msg)) msg
    ∧ (strIncludes msg "timeout" = true →
        runTool (StartOutcome.stream { events := events, terminal := Terminal.raise msg })
          resume maxAttempts
        = ToolResponse.failure ResultLevel.TIMEOUT msg) := by
  refine ⟨?_, ?_, rfl, rfl, ?_⟩
  · cases hc : (strIncludes msg "timeout" || strIncludes msg "aborted") <;>
      simp [determineResultLevel, hc]
  · cases hc : (strIncludes msg "timeout" || strIncludes msg "aborted") <;>
      simp [determineResultLevel, hc]
  · intro h
    have hc : (strIncludes msg "timeout" || strIncludes msg "aborted") = true := by
      rw [h, Bool.true_or]
    have h4 : runTool (StartOutcome.stream { events := events, terminal := Terminal.raise msg })
        resume maxAttempts
        = ToolResponse.failure (determineResultLevel [] true (some msg)) msg := rfl
    rw [h4]
    have h5 : determineResultLevel [] true (some msg) = ResultLevel.TIMEOUT := by
      simp [determineResultLevel, hc]
    rw [h5]

/-- Witness for C5: an error message containing `"timeout"` raised before any
item completes yields the TIMEOUT error response with no recovery attempt. -/
theorem error_level_classification_witness :
    runTool (StartOutcome.stream { events := [], terminal := Terminal.raise "operation timeout" })
        (fun _ => ResumeOutcome.throws "q") 1
      = ToolResponse.failure ResultLevel.TIMEOUT "operation timeout" :=
  (error_level_classification [] "operation timeout" []
    (fun _ => ResumeOutcome.throws "q") 1).2.2.2.2 (by decide)

/-- Claim C9 (confirmed): a source delivering zero events before the
inactivity timeout elapses yields `stalled = true` and an empty item list
(with no session id, empty final text, no usage, no error). -/
theorem zero_events_timeout_stalled_empty :
    processEventsWithStallDetection { events := [], terminal := Terminal.timeout }
      = Except.ok { items := [], threadId := none, finalResponse := "", usage := none,
                    stalled := true, error := none } := rfl

/-- Claim C6 (confirmed): when the original pass stalls and no session
identifier was ever observed (and the `run` handler supplies none — its
closure still reads `null` during the run), recovery is not attempted: the
orchestrator returns the untouched record (`attempted = false`,
`attempts = 0`), the handler's result level is TIMEOUT, `needsUserInput` is
`true`, and — in general — the serialized `recovery` field is present only
when an attempt was made. -/
theorem stall_without_session_no_recovery (events : List ThreadEvent)
    (resume : Nat → ResumeOutcome) (maxAttempts : Nat)
    (h : ∀ e ∈ events, isThreadStartedEvent e = false) :
    (runWithStallRecovery { events := events, terminal := Terminal.timeout }
        none resume maxAttempts).toOption.map (fun o => o.recovery)
      = some { attempted := false, attempts := 0, recovered := false, lastError := none }
    ∧ (runTool (StartOutcome.stream { events := events, terminal := Terminal.timeout })
        resume maxAttempts).level = ResultLevel.TIMEOUT
    ∧ (runTool (StartOutcome.stream { events := events, terminal := Terminal.timeout })
        resume maxAttempts).recoveryField = none
    ∧ (runTool (StartOutcome.stream { events := events, terminal := Terminal.timeout })
        resume maxAttempts).needsUserInputField = true
    ∧ (∀ (start : StartOutcome) (res2 : Nat → ResumeOutcome) (m2 : Nat) (rec2 : RecoveryInfo),
        (runTool start res2 m2).recoveryField = some rec2 → rec2.attempted = true) := by
  have hth : ({ events.foldl stepEvent initResult with stalled := true }
      : EventProcessingResult).threadId = none := by
    show (events.foldl stepEvent initResult).threadId = none
    rw [foldl_stepEvent_threadId, observe_no_thread_started events h]
    rfl
  have hrw := runWithStallRecovery_no_tid
    { events := events, terminal := Terminal.timeout } resume maxAttempts
    { events.foldl stepEvent initResult with stalled := true }
    (processEvents_timeout events) hth
  refine ⟨?_, ?_, ?_, ?_, ?_⟩
  · rw [hrw]
    rfl
  · simp [runTool, hrw, ToolResponse.level]
  · simp [runTool, hrw, ToolResponse.recoveryField]
  · simp [runTool, hrw, ToolResponse.needsUserInputField]
  · intro start res2 m2 rec2 hr
    cases start with
    | throws m =>
        simp [runTool, ToolResponse.recoveryField] at hr
    | stream s =>
        cases hout : runWithStallRecovery s none res2 m2 with
        | error m =>
            simp [runTool, hout, ToolResponse.recoveryField] at hr
        | ok out =>
            simp only [runTool, hout, ToolResponse.recoveryField] at hr
            split at hr
            case isTrue hcond =>
              injection hr with h2
              rw [← h2]
              exact hcond
            case isFalse hcond =>
              exact Option.noConfusion hr

/-- Witness for C6 at a stream with one `turn.started` event and no
`thread.started`: TIMEOUT and `needsUserInput = true`. -/
theorem stall_without_session_no_recovery_witness :
    (runTool (StartOutcome.stream
        { events := [ThreadEvent.turn_started], terminal := Terminal.timeout })
        (fun _ => ResumeOutcome.throws "w") 2).level = ResultLevel.TIMEOUT
    ∧ (runTool (StartOutcome.stream
        { events := [ThreadEvent.turn_started], terminal := Terminal.timeout })
        (fun _ => ResumeOutcome.throws "w") 2).needsUserInputField = true :=
  ⟨(stall_without_session_no_recovery [ThreadEvent.turn_started]
      (fun _ => ResumeOutcome.throws "w") 2 (by decide)).2.1,
   (stall_without_session_no_recovery [ThreadEvent.turn_started]
      (fun _ => ResumeOutcome.throws "w") 2 (by decide)).2.2.2.1⟩

/-- Claim C8 (confirmed): a recovery attempt whose resume capability throws is
absorbed by `attemptRecovery`'s catch into a stalled attempt result carrying
the raised message as `error` (not a propagated exception), and the recovery
loop records that message as `lastError`, counts the attempt, and continues
with the next attempt instead of aborting. -/
theorem recovery_attempt_error_absorbed (tid msg : String) (resume : Nat → ResumeOutcome)
    (result : EventProcessingResult) (rec : RecoveryInfo) (a r : Nat)
    (h : resume a = ResumeOutcome.throws msg) :
    attemptRecovery tid (ResumeOutcome.throws msg)
      = ({ items := [], threadId := some tid, finalResponse := "", usage := none,
           stalled := true, error := some msg }, false)
    ∧ recoveryLoop tid resume result rec a (r + 1)
      = recoveryLoop tid resume result
          { rec with
              attempts := a
              lastError := some (jsOrDefault (some msg) stillStalledMsg) }
          (a + 1) r := by
  refine ⟨rfl, ?_⟩
  have hfail : (attemptRecovery tid (resume a)).2 = false := by
    rw [h]
    rfl
  rw [recoveryLoop_failed_step tid resume result rec a r hfail, h]
  rfl

/-- Witness for C8: with a resume capability that always throws `"net down"`,
the first loop iteration turns into the next one with `attempts = 1` and
`lastError = some "net down"`. -/
theorem recovery_attempt_error_absorbed_witness :
    recoveryLoop "t" (fun _ => ResumeOutcome.throws "net down") initResult
        { attempted := true, attempts := 0, recovered := false, lastError := none } 1 2
      = recoveryLoop "t" (fun _ => ResumeOutcome.throws "net down") initResult
          { attempted := true, attempts := 1, recovered := false,
            lastError := some (jsOrDefault (some "net down") stillStalledMsg) } 2 1 :=
  (recovery_attempt_error_absorbed "t" "net down" (fun _ => ResumeOutcome.throws "net down")
    initResult { attempted := true, attempts := 0, recovered := false, lastError := none }
    1 1 rfl).2

/-- Claim C10 (confirmed): a stream consisting exclusively of `turn.failed`
and/or `error` events followed by graceful end of stream leaves the
accumulator untouched — items `[]`, `stalled = false`, no error field — the
handler classifies the run PASS with the empty summary, and those events are
each merely logged (one log line per event, nothing else). -/
theorem inert_events_contribute_nothing (events : List ThreadEvent)
    (resume : Nat → ResumeOutcome) (maxAttempts stallTimeoutMs : Nat)
    (h : ∀ e ∈ events, isTurnFailedOrErrorEvent e = true) :
    processEventsWithStallDetection { events := events, terminal := Terminal.done }
      = Except.ok initResult
    ∧ runTool (StartOutcome.stream { events := events, terminal := Terminal.done })
        resume maxAttempts
      = ToolResponse.success ResultLevel.PASS emptySummary
    ∧ processLog { events := events, terminal := Terminal.done } stallTimeoutMs
      = events.map eventLogLine := by
  have hfold : events.foldl stepEvent initResult = initResult :=
    foldl_stepEvent_inert events h initResult
  have hpe : processEventsWithStallDetection { events := events, terminal := Terminal.done }
      = Except.ok initResult := by
    rw [processEvents_done, hfold]
  refine ⟨hpe, ?_, ?_⟩
  · have hrw := runWithStallRecovery_not_stalled
      { events := events, terminal := Terminal.done } none resume maxAttempts
      initResult hpe rfl
    simp [runTool, hrw, emptySummary, determineResultLevel, initResult]
  · simp [processLog]

/-- Witness for C10 at the stream `[turn.failed "tf", error "em"]`. -/
theorem inert_events_contribute_nothing_witness :
    runTool (StartOutcome.stream
        { events := [ThreadEvent.turn_failed "tf", ThreadEvent.error "em"],
          terminal := Terminal.done })
        (fun _ => ResumeOutcome.throws "x") 2
      = ToolResponse.success ResultLevel.PASS emptySummary :=
  (inert_events_contribute_nothing [ThreadEvent.turn_failed "tf", ThreadEvent.error "em"]
    (fun _ => ResumeOutcome.throws "x") 2 0 (by decide)).2.1

/-- Claim C3, counterexample: a FAILED recovery pass's items are dropped from
the cumulative list. Original pass: session `"T"`, items `[A, B]`, stall.
Recovery attempt 1 yields item `D` and stalls again; attempt 2 yields `C` and
succeeds. The merged item list is `[A, B, C]` — item `D`, produced by a
recovery pass, is not in it, contradicting "no recovery pass's items are
dropped from the cumulative list". -/
theorem failed_attempt_items_dropped_cex :
    (attemptRecovery "T" (cexResume 1)).1.items = [itemD]
    ∧ (runWithStallRecovery cexSource none cexResume 2).toOption.map
        (fun o => o.result.items) = some [itemA, itemB, itemC]
    ∧ itemD ∉ [itemA, itemB, itemC] :=
  ⟨rfl, rfl, by decide⟩

/-- Claim C3, amended: the cumulative item list is the original pass's items
followed by the items of the FIRST SUCCESSFUL recovery pass (failed recovery
passes contribute nothing — only their failure reason is kept in
`lastError`); in particular, for pre-stall items `[A, B]` and a successful
recovery pass yielding `[C]`, the merged item list is exactly `[A, B, C]`. -/
theorem merged_items_original_then_successful_pass
    (tid : String) (resume : Nat → ResumeOutcome) (result : EventProcessingResult)
    (rec : RecoveryInfo) (a r : Nat)
    (hsucc : (attemptRecovery tid (resume a)).2 = true)
    (A B C : ThreadItem) (tid2 : String) (resume2 : Nat → ResumeOutcome) (m : Nat)
    (h2 : tid2.isEmpty = false)
    (hres : resume2 1 = ResumeOutcome.stream
      { events := [ThreadEvent.item_completed C], terminal := Terminal.done }) :
    (recoveryLoop tid resume result rec a (r + 1)).1.items
        = result.items ++ (attemptRecovery tid (resume a)).1.items
    ∧ (runWithStallRecovery
          { events := [ThreadEvent.thread_started tid2, ThreadEvent.item_completed A,
                       ThreadEvent.item_completed B], terminal := Terminal.timeout }
          none resume2 (m + 1)).toOption.map (fun o => o.result.items)
        = some [A, B, C] := by
  constructor
  · rw [recoveryLoop_first_success tid resume result rec a r hsucc]
  · have hstall : ({ [ThreadEvent.thread_started tid2, ThreadEvent.item_completed A,
        ThreadEvent.item_completed B].foldl stepEvent initResult with stalled := true }
        : EventProcessingResult).stalled = true := rfl
    have htid : ({ [ThreadEvent.thread_started tid2, ThreadEvent.item_completed A,
        ThreadEvent.item_completed B].foldl stepEvent initResult with stalled := true }
        : EventProcessingResult).threadId = some tid2 := by
      show ([ThreadEvent.thread_started tid2, ThreadEvent.item_completed A,
        ThreadEvent.item_completed B].foldl stepEvent initResult).threadId = some tid2
      rw [foldl_stepEvent_threadId]
      rfl
    have hitems : ({ [ThreadEvent.thread_started tid2, ThreadEvent.item_completed A,
        ThreadEvent.item_completed B].foldl stepEvent initResult with stalled := true }
        : EventProcessingResult).items = [A, B] := by
      show ([ThreadEvent.thread_started tid2, ThreadEvent.item_completed A,
        ThreadEvent.item_completed B].foldl stepEvent initResult).items = [A, B]
      rw [foldl_stepEvent_items]
      rfl
    have hrw := runWithStallRecovery_stalled_tid
      { events := [ThreadEvent.thread_started tid2, ThreadEvent.item_completed A,
                   ThreadEvent.item_completed B], terminal := Terminal.timeout }
      none resume2 (m + 1)
      { [ThreadEvent.thread_started tid2, ThreadEvent.item_completed A,
         ThreadEvent.item_completed B].foldl stepEvent initResult with stalled := true }
      tid2 (processEvents_timeout _) hstall htid h2
    have hCfold : ([ThreadEvent.item_completed C].foldl stepEvent initResult).stalled
        = false := by
      rw [foldl_stepEvent_stalled]
      rfl
    have hAR : attemptRecovery tid2 (resume2 1)
        = ([ThreadEvent.item_completed C].foldl stepEvent initResult, true) := by
      rw [hres]
      simp only [attemptRecovery, processEvents_done, hCfold, Bool.false_eq_true, if_false]
    have hsucc2 : (attemptRecovery tid2 (resume2 1)).2 = true := by rw [hAR]
    have hloop := recoveryLoop_first_success tid2 resume2
      { [ThreadEvent.thread_started tid2, ThreadEvent.item_completed A,
         ThreadEvent.item_completed B].foldl stepEvent initResult with stalled := true }
      recoveryStart 1 m hsucc2
    rw [hrw]
    show some ((recoveryLoop tid2 resume2
        { [ThreadEvent.thread_started tid2, ThreadEvent.item_completed A,
           ThreadEvent.item_completed B].foldl stepEvent initResult with stalled := true }
        recoveryStart 1 (m + 1)).1.items) = some [A, B, C]
    rw [hloop, hAR]
    show some (({ [ThreadEvent.thread_started tid2, ThreadEvent.item_completed A,
        ThreadEvent.item_completed B].foldl stepEvent initResult with stalled := true }
        : EventProcessingResult).items
        ++ ([ThreadEvent.item_completed C].foldl stepEvent initResult).items)
      = some [A, B, C]
    have hCitems : ([ThreadEvent.item_completed C].foldl stepEvent initResult).items
        = [C] := by
      rw [foldl_stepEvent_items]
      rfl
    rw [hitems, hCitems]
    rfl

/-- Witness for the amended C3: the spec scenario with concrete items. -/
theorem merged_items_original_then_successful_pass_witness :
    (runWithStallRecovery
        { events := [ThreadEvent.thread_started "T", ThreadEvent.item_completed itemA,
                     ThreadEvent.item_completed itemB], terminal := Terminal.timeout }
        none
        (fun _ => ResumeOutcome.stream { events := [ThreadEvent.item_completed itemC],
                                         terminal := Terminal.done })
        2).toOption.map (fun o => o.result.items)
      = some [itemA, itemB, itemC] :=
  (merged_items_original_then_successful_pass "T"
    (fun _ => ResumeOutcome.stream { events := [ThreadEvent.item_completed itemC],
                                     terminal := Terminal.done })
    initResult recoveryStart 1 0 (by decide)
    itemA itemB itemC "T"
    (fun _ => ResumeOutcome.stream { events := [ThreadEvent.item_completed itemC],
                                     terminal := Terminal.done })
    1 (by decide) rfl).2

/-- Claim C7 (confirmed): across the recovery loop started by the
orchestrator, `attempted` is already `true` and stays `true` in every state
(it flipped exactly once, before the loop), `attempts` never exceeds
`maxRecoveryAttempts`, the state sequence is monotone (`attempts`
non-decreasing, `attempted` and `recovered` never revert to `false`), a
`recovered = true` state is necessarily the final state — no further attempt
executes after the first success — the final trace state is exactly the
recovery record the loop returns, and every record `runWithStallRecovery`
returns normally reports at most `maxRecoveryAttempts` attempts. -/
theorem recovery_record_monotone_bounded (tid : String) (resume : Nat → ResumeOutcome)
    (result : EventProcessingResult) (maxAttempts : Nat) :
    (∀ s ∈ recoveryTrace tid resume recoveryStart 1 maxAttempts,
        s.attempted = true ∧ s.attempts ≤ maxAttempts)
    ∧ List.Chain' recMono (recoveryTrace tid resume recoveryStart 1 maxAttempts)
    ∧ (∀ (l1 : List RecoveryInfo) (s : RecoveryInfo) (l2 : List RecoveryInfo),
        recoveryTrace tid resume recoveryStart 1 maxAttempts = l1 ++ s :: l2 →
          s.recovered = true → l2 = [])
    ∧ lastD (recoveryTrace tid resume recoveryStart 1 maxAttempts) recoveryStart
        = (recoveryLoop tid resume result recoveryStart 1 maxAttempts).2
    ∧ (∀ (src : Source) (g : Option String) (out : RunRecoveryOutput),
        runWithStallRecovery src g resume maxAttempts = Except.ok out →
          out.recovery.attempts ≤ maxAttempts) := by
  obtain ⟨hmem, hchain, hpos⟩ := recoveryTrace_props tid resume maxAttempts 1 recoveryStart
  refine ⟨?_, hchain, hpos rfl,
    recoveryTrace_lastD tid resume result maxAttempts 1 recoveryStart, ?_⟩
  · intro s hs
    obtain ⟨h1, h2, h3, h4⟩ := hmem s hs
    exact ⟨h1, by omega⟩
  · intro src g out hout
    exact runWithStallRecovery_attempts_le src g resume maxAttempts out hout

/-- Witness for C7: a concrete exhausted recovery (both attempts throw)
reports `attempts = 2 ≤ maxRecoveryAttempts = 2`. -/
theorem recovery_record_monotone_bounded_witness :
    ({ attempted := true, attempts := 2, recovered := false,
       lastError := some "x" } : RecoveryInfo).attempts ≤ 2 :=
  (recovery_record_monotone_bounded "t" (fun _ => ResumeOutcome.throws "x") initResult 2).2.2.2.2
    { events := [ThreadEvent.thread_started "t"], terminal := Terminal.timeout } none
    { result := { items := [], threadId := some "t", finalResponse := "",
                  usage := none, stalled := true, error := none },
      recovery := { attempted := true, attempts := 2, recovered := false,
                    lastError := some "x" } }
    rfl

end Subcodex
